import Mathlib

/-
Verification of the Aurora Analyst financial-analysis service.

The request-handling layer is embedded from src/app/api/analyze/route.ts:
JavaScript runtime values reachable from a parsed JSON body are modelled by
the inductive type JSValue, finite doubles are modelled as rationals, and
the route's sanitizers (sanitizeNumber, normalizePeriods,
normalizeAssumptions) and the POST handler are translated function by
function.  The analysis engine itself (src/lib/analysis.ts) is not part of
the visible sources, so runAnalysis and its components are modelled from
the specification, as marked on each of those definitions.
-/

/-- A JavaScript number as seen by the sanitizer: either a finite double,
modelled as a rational, or one of the non-finite values NaN and the two
infinities, which Number.isFinite rejects. -/
inductive JSNum where
  | finite (q : ℚ)
  | nan
  | inf
  | negInf
deriving DecidableEq

/-- A JavaScript runtime value as produced by parsing a JSON body, together
with the undefined value that a missing property access yields. -/
inductive JSValue where
  | undefined
  | null
  | bool (b : Bool)
  | num (n : JSNum)
  | str (s : String)
  | arr (elems : List JSValue)
  | obj (fields : List (String × JSValue))

/-- Property access on a JavaScript value: an object yields the named field
or undefined, any other value (for which access does not throw) yields
undefined. -/
def JSValue.getField : JSValue → String → JSValue
  | .obj fields, name => (fields.lookup name).getD .undefined
  | _, _ => .undefined

/-- Property access `body.periods` throws a TypeError exactly when the
receiver is null or undefined. -/
def JSValue.accessThrows : JSValue → Bool
  | .null => true
  | .undefined => true
  | _ => false

/-- Discriminates the values for which `typeof row === "object" && row !==
null` holds: plain objects and arrays, but not null. -/
def JSValue.isObjectLike : JSValue → Bool
  | .obj _ => true
  | .arr _ => true
  | _ => false

/-- Discriminates arrays, as Array.isArray does. -/
def JSValue.isArray : JSValue → Bool
  | .arr _ => true
  | _ => false

/-- JavaScript truthiness: undefined, null, false, 0, NaN and the empty
string are falsy, everything else is truthy. -/
def JSValue.isTruthy : JSValue → Bool
  | .undefined => false
  | .null => false
  | .bool b => b
  | .num (JSNum.finite q) => q ≠ 0
  | .num JSNum.nan => false
  | .num _ => true
  | .str s => s ≠ ""
  | .arr _ => true
  | .obj _ => true

/-- Discriminates the values of typeof "object": objects, arrays and null. -/
def JSValue.typeofObject : JSValue → Bool
  | .obj _ => true
  | .arr _ => true
  | .null => true
  | _ => false

/-- Numeric value of a string of decimal digits. -/
def digitsVal (ds : List Char) : ℕ :=
  ds.foldl (fun acc c => 10 * acc + (c.toNat - 48)) 0

/-- Integer power of ten. -/
def tenPow : ℕ → ℤ
  | 0 => 1
  | n + 1 => 10 * tenPow n

/-- Value denoted by a sign, an integer part, a fractional part and a signed
decimal exponent, following the number grammar that parseFloat accepts: the
mantissa digits over the matching power of ten, scaled by the exponent. -/
def decValue (neg : Bool) (intDs fracDs : List Char) (expNeg : Bool)
    (expDs : List Char) : ℚ :=
  let base : ℤ := (digitsVal intDs : ℤ) * tenPow fracDs.length + (digitsVal fracDs : ℤ)
  let e := digitsVal expDs
  let num : ℤ := if expNeg then base else base * tenPow e
  let den : ℤ := if expNeg then tenPow (fracDs.length + e) else tenPow fracDs.length
  let v : ℚ := Rat.divInt num den
  if neg then -v else v

/-- Model of the JavaScript parseFloat builtin: leading whitespace is
skipped, an optional sign, the literal Infinity, or a decimal mantissa with
an optional exponent is read, any trailing garbage is ignored, and NaN is
returned when no digits are found. -/
def jsParseFloat (s : String) : JSNum :=
  let cs := s.toList.dropWhile (fun c => c.isWhitespace)
  let neg : Bool :=
    match cs with
    | '-' :: _ => true
    | _ => false
  let cs1 :=
    match cs with
    | '-' :: rest => rest
    | '+' :: rest => rest
    | _ => cs
  if cs1.take 8 = "Infinity".toList then
    if neg then JSNum.negInf else JSNum.inf
  else
    let intDs := cs1.takeWhile Char.isDigit
    let rest := cs1.dropWhile Char.isDigit
    let fracDs :=
      match rest with
      | '.' :: r => r.takeWhile Char.isDigit
      | _ => []
    let rest2 :=
      match rest with
      | '.' :: r => r.dropWhile Char.isDigit
      | _ => rest
    if intDs.isEmpty && fracDs.isEmpty then JSNum.nan
    else
      let expPart :=
        match rest2 with
        | 'e' :: '-' :: r => (true, r.takeWhile Char.isDigit)
        | 'E' :: '-' :: r => (true, r.takeWhile Char.isDigit)
        | 'e' :: '+' :: r => (false, r.takeWhile Char.isDigit)
        | 'E' :: '+' :: r => (false, r.takeWhile Char.isDigit)
        | 'e' :: r => (false, r.takeWhile Char.isDigit)
        | 'E' :: r => (false, r.takeWhile Char.isDigit)
        | _ => (false, [])
      JSNum.finite (decValue neg intDs fracDs expPart.1 expPart.2)

/-- Embedding of sanitizeNumber from src/app/api/analyze/route.ts: a finite
number is returned as is; a string is parsed with parseFloat and the result
returned when finite; every other value collapses to 0. -/
def sanitizeNumber : JSValue → ℚ
  | .num (JSNum.finite q) => q
  | .str s =>
    match jsParseFloat s with
    | JSNum.finite q => q
    | _ => 0
  | _ => 0

/-- The raw values that sanitizeNumber accepts as numeric: finite
JavaScript numbers, and strings whose parseFloat result is finite. -/
def finiteNumeric : JSValue → Option ℚ
  | .num (JSNum.finite q) => some q
  | .str s =>
    match jsParseFloat s with
    | JSNum.finite q => some q
    | _ => none
  | _ => none

/-- A sanitized reporting period, as produced by normalizePeriods. -/
structure FinancialPeriod where
  label : String
  revenue : ℚ
  cogs : ℚ
  operatingExpenses : ℚ
  netIncome : ℚ
  assets : ℚ
  liabilities : ℚ
  cash : ℚ
  freeCashFlow : ℚ
deriving DecidableEq

/-- Model of the JavaScript String.prototype.trim builtin: leading and
trailing whitespace characters are removed. -/
def jsTrim (s : String) : String :=
  String.mk
    (((s.toList.dropWhile fun c => c.isWhitespace).reverse.dropWhile
      fun c => c.isWhitespace).reverse)

/-- Embedding of the label normalization inside normalizePeriods: a string
label whose trim has nonzero length is kept, anything else becomes the
placeholder "Period". -/
def normalizeLabel : JSValue → String
  | .str s => if (jsTrim s).length ≠ 0 then s else "Period"
  | _ => "Period"

/-- Embedding of the per-row body of normalizePeriods: the label is
normalized and each of the eight numeric fields is read off the raw row and
sanitized. -/
def normalizeRow (row : JSValue) : FinancialPeriod :=
  { label := normalizeLabel (row.getField "label")
    revenue := sanitizeNumber (row.getField "revenue")
    cogs := sanitizeNumber (row.getField "cogs")
    operatingExpenses := sanitizeNumber (row.getField "operatingExpenses")
    netIncome := sanitizeNumber (row.getField "netIncome")
    assets := sanitizeNumber (row.getField "assets")
    liabilities := sanitizeNumber (row.getField "liabilities")
    cash := sanitizeNumber (row.getField "cash")
    freeCashFlow := sanitizeNumber (row.getField "freeCashFlow") }

/-- Embedding of normalizePeriods from src/app/api/analyze/route.ts: a
non-array yields the empty list; an array is mapped row by row, object-like
rows are normalized and all other rows become null, and the final
filter(Boolean) drops the nulls. -/
def normalizePeriods : JSValue → List FinancialPeriod
  | .arr rows =>
    (rows.map fun row =>
      if row.isObjectLike then some (normalizeRow row) else none).reduceOption
  | _ => []

/-- The four scenario levers, as produced by normalizeAssumptions. -/
structure ScenarioAssumptions where
  revenueGrowth : ℚ
  marginShift : ℚ
  efficiencyGain : ℚ
  cashConversion : ℚ
deriving DecidableEq

/-- Embedding of normalizeAssumptions from src/app/api/analyze/route.ts: a
falsy or non-object raw value yields the all-zero record, otherwise each of
the four fields is read off the raw value and sanitized. -/
def normalizeAssumptions (raw : JSValue) : ScenarioAssumptions :=
  if !raw.isTruthy || !raw.typeofObject then
    { revenueGrowth := 0, marginShift := 0, efficiencyGain := 0, cashConversion := 0 }
  else
    { revenueGrowth := sanitizeNumber (raw.getField "revenueGrowth")
      marginShift := sanitizeNumber (raw.getField "marginShift")
      efficiencyGain := sanitizeNumber (raw.getField "efficiencyGain")
      cashConversion := sanitizeNumber (raw.getField "cashConversion") }

/-- Default period record used to make head and last of a period list total
in Lean; the engine is only invoked on non-empty lists. -/
def defPeriod : FinancialPeriod :=
  { label := "", revenue := 0, cogs := 0, operatingExpenses := 0, netIncome := 0,
    assets := 0, liabilities := 0, cash := 0, freeCashFlow := 0 }

/-- Clamp of a rational to the interval from lo to hi. -/
def clampQ (lo hi x : ℚ) : ℚ := max lo (min hi x)

/-- Arithmetic mean of a list of rationals, 0 for the empty list. -/
def averageQ (xs : List ℚ) : ℚ :=
  if xs.length = 0 then 0 else xs.sum / (xs.length : ℚ)

/-- Bisection step for the k-th root of a positive rational. -/
def nthRootIter (x : ℚ) (k : ℕ) : ℕ → ℚ → ℚ → ℚ
  | 0, lo, hi => (lo + hi) / 2
  | fuel + 1, lo, hi =>
    let mid := (lo + hi) / 2
    if mid ^ k ≤ x then nthRootIter x k fuel mid hi
    else nthRootIter x k fuel lo mid

/-- Modelled from the spec: the fractional power used by the CAGR formula of
the Metrics Calculator (spec section 4.1), computed exactly when the
exponent is 1 and by bisection to 64 binary digits otherwise, mirroring the
floating-point pow of the missing src/lib/analysis.ts. -/
def qRoot (x : ℚ) (k : ℕ) : ℚ :=
  if k = 1 then x
  else if x ≤ 0 then 0
  else nthRootIter x k 64 0 (max 1 x)

/-- Modelled from the spec: the internal TrailingMetrics record of the
missing src/lib/analysis.ts (spec section 3). -/
structure TrailingMetrics where
  cagr : ℚ
  netMargin : ℚ
  burnMultiple : ℚ
  leverageRatio : ℚ
  liquidityRatio : ℚ
  growthVelocity : ℚ
deriving DecidableEq

/-- Period-over-period revenue growth rates across consecutive pairs, with
none marking a pair whose denominator is zero. -/
def pairGrowthRates : List FinancialPeriod → List (Option ℚ)
  | a :: b :: rest =>
    (if a.revenue = 0 then none else some ((b.revenue - a.revenue) / a.revenue)) ::
      pairGrowthRates (b :: rest)
  | _ => []

/-- Modelled from the spec: the Metrics Calculator of the missing
src/lib/analysis.ts (spec section 4.1); every division is guarded and every
ratio is clamped exactly as the specification prescribes. -/
def computeMetrics (periods : List FinancialPeriod) : TrailingMetrics :=
  let first := periods.headD defPeriod
  let last := periods.getLastD defPeriod
  let n := periods.length
  let cagr :=
    if 2 ≤ n ∧ 0 < first.revenue ∧ 0 < last.revenue then
      qRoot (last.revenue / first.revenue) (n - 1) - 1
    else 0
  let marginSamples :=
    (periods.filter fun p => p.revenue ≠ 0).map fun p => p.netIncome / p.revenue
  let netMargin := averageQ marginSamples
  let totalBurn := (periods.map fun p => max 0 (-p.freeCashFlow)).sum
  let burnMultiple := clampQ 0 50 (totalBurn / max 1 (last.revenue - first.revenue))
  let leverageRatio :=
    clampQ 0 5 (if 0 < last.assets then last.liabilities / last.assets else 0)
  let avgMonthlyOpex := averageQ (periods.map fun p => p.operatingExpenses) / 12
  let liquidityRatio := clampQ 0 60 (last.cash / max 1 avgMonthlyOpex)
  let rates := pairGrowthRates periods
  let growthVelocity :=
    if n < 2 ∨ rates.any fun r => r.isNone then 0
    else averageQ rates.reduceOption
  { cagr := cagr, netMargin := netMargin, burnMultiple := burnMultiple,
    leverageRatio := leverageRatio, liquidityRatio := liquidityRatio,
    growthVelocity := growthVelocity }

/-- Modelled from the spec: one projected year of the Scenario Projector of
the missing src/lib/analysis.ts (spec section 3). -/
structure ScenarioYear where
  year : String
  revenue : ℚ
  netIncome : ℚ
  freeCashFlow : ℚ
deriving DecidableEq

/-- Modelled from the spec: the Scenario Projector of the missing
src/lib/analysis.ts (spec section 4.2); a compounding three-year projection
from the last historical period, with the effective margin and free cash
flow conversion clamped to the interval from -1 to 1. -/
def buildScenario (last : FinancialPeriod) (m : TrailingMetrics)
    (a : ScenarioAssumptions) : List ScenarioYear :=
  let growthRate := m.growthVelocity + a.revenueGrowth / 100
  let margin := clampQ (-1) 1 (m.netMargin + a.marginShift / 100)
  let baseFcf := if last.revenue = 0 then 0 else last.freeCashFlow / last.revenue
  let fcfRatio := clampQ (-1) 1 (baseFcf + (a.efficiencyGain + a.cashConversion) / 100)
  let r1 := last.revenue * (1 + growthRate)
  let r2 := r1 * (1 + growthRate)
  let r3 := r2 * (1 + growthRate)
  [ { year := "Year 1", revenue := r1, netIncome := r1 * margin, freeCashFlow := r1 * fcfRatio },
    { year := "Year 2", revenue := r2, netIncome := r2 * margin, freeCashFlow := r2 * fcfRatio },
    { year := "Year 3", revenue := r3, netIncome := r3 * margin, freeCashFlow := r3 * fcfRatio } ]

/-- Modelled from the spec: the five bounded scores of the missing
src/lib/analysis.ts (spec section 3). -/
structure HealthScores where
  overall : ℚ
  growth : ℚ
  profitability : ℚ
  liquidity : ℚ
  efficiency : ℚ
deriving DecidableEq

/-- Monotone piecewise-linear score from a bad and a good reference point,
rounded to the nearest integer and clamped to the interval from 0 to 100. -/
def scoreLinear (bad good m : ℚ) : ℚ :=
  clampQ 0 100 ((round (100 * (m - bad) / (good - bad)) : ℤ) : ℚ)

/-- Modelled from the spec: the Health Scorer of the missing
src/lib/analysis.ts (spec section 4.3), with the breakpoints and weights
the specification fixes; each of the five scores is independently clamped
to the interval from 0 to 100. -/
def computeHealthScores (m : TrailingMetrics) : HealthScores :=
  let growth := scoreLinear (-(1/10)) (2/5) m.cagr
  let profitability := scoreLinear (-(1/5)) (1/4) m.netMargin
  let liquidity := scoreLinear 1 18 m.liquidityRatio
  let efficiency := scoreLinear 4 (1/2) m.burnMultiple
  let overall :=
    clampQ 0 100
      ((round (3/10 * growth + 3/10 * profitability + 1/5 * liquidity + 1/5 * efficiency) : ℤ) : ℚ)
  { overall := overall, growth := growth, profitability := profitability,
    liquidity := liquidity, efficiency := efficiency }

/-- Last two elements of a period list, in order, when there are at least
two. -/
def lastTwo : List FinancialPeriod → Option (FinancialPeriod × FinancialPeriod)
  | [a, b] => some (a, b)
  | _ :: b :: rest => lastTwo (b :: rest)
  | _ => none

/-- Modelled from the spec: the fifth risk rule of the Risk Signal Detector
(spec section 4.4), firing when the last two periods have negative and
declining free cash flow. -/
def fcfWorseningSignals (periods : List FinancialPeriod) : List String :=
  match lastTwo periods with
  | some (a, b) =>
    if a.freeCashFlow < 0 ∧ b.freeCashFlow < 0 ∧ b.freeCashFlow < a.freeCashFlow then
      ["Free cash flow is negative and worsening across the last two periods."]
    else []
  | none => []

/-- Modelled from the spec: the Risk Signal Detector of the missing
src/lib/analysis.ts (spec section 4.4); the five rules are evaluated in the
listed order and each appends one fixed-wording signal when it fires. -/
def computeRiskSignals (m : TrailingMetrics) (periods : List FinancialPeriod) :
    List String :=
  (if m.netMargin < 0 then
    ["Net margin is negative: the business is losing money on current operations."] else []) ++
  (if 7/10 < m.leverageRatio then
    ["Leverage is elevated: liabilities exceed 70 percent of assets."] else []) ++
  (if m.liquidityRatio < 3 then
    ["Cash runway is short: fewer than three months of operating expense held in cash."] else []) ++
  (if 2 < m.burnMultiple then
    ["Growth spend is inefficient: the burn multiple exceeds 2."] else []) ++
  fcfWorseningSignals periods

/-- Modelled from the spec: one recommendation section of the missing
src/lib/analysis.ts (spec section 3). -/
structure Recommendation where
  title : String
  highlight : String
  bullets : List String
deriving DecidableEq

/-- Modelled from the spec: the fixed recommendation catalog of the
Narrative Composer (spec section 4.5), keyed by category in the catalog
order growth, profitability, liquidity, efficiency. -/
def recommendationCatalog : ℕ → Recommendation
  | 0 =>
    { title := "Accelerate Growth",
      highlight := "Revenue momentum is the weakest lever.",
      bullets := ["Expand the highest-converting acquisition channels.",
                  "Revisit pricing and packaging for expansion revenue."] }
  | 1 =>
    { title := "Restore Profitability",
      highlight := "Margins need structural attention.",
      bullets := ["Audit gross margin drivers and renegotiate input costs.",
                  "Stage operating expense growth behind revenue."] }
  | 2 =>
    { title := "Strengthen Liquidity",
      highlight := "Cash runway limits strategic freedom.",
      bullets := ["Extend runway with tighter working-capital cycles.",
                  "Line up financing before it becomes urgent."] }
  | _ =>
    { title := "Improve Capital Efficiency",
      highlight := "Spend is outpacing the growth it buys.",
      bullets := ["Tie burn to measurable growth payback windows.",
                  "Sunset initiatives with negative contribution."] }

/-- Stable insertion of a scored category into a score-sorted list; on ties
the inserted element keeps its earlier catalog position. -/
def insertByScore (x : ℕ × ℚ) : List (ℕ × ℚ) → List (ℕ × ℚ)
  | [] => [x]
  | y :: ys => if x.2 ≤ y.2 then x :: y :: ys else y :: insertByScore x ys

/-- Stable insertion sort of scored categories by ascending score. -/
def sortByScore : List (ℕ × ℚ) → List (ℕ × ℚ)
  | [] => []
  | x :: xs => insertByScore x (sortByScore xs)

/-- Modelled from the spec: the recommendation selection of the Narrative
Composer (spec section 4.5); the three lowest-scoring non-overall
categories each contribute their catalog section, ties broken by the fixed
catalog order. -/
def buildRecommendations (s : HealthScores) : List Recommendation :=
  let cats := [(0, s.growth), (1, s.profitability), (2, s.liquidity), (3, s.efficiency)]
  ((sortByScore cats).take 3).map fun c => recommendationCatalog c.1

/-- Modelled from the spec: the narrative template selection of the
Narrative Composer (spec section 4.5), keyed by discretized tiers of the
overall score with metric values interpolated. -/
def narrativeFor (s : HealthScores) (m : TrailingMetrics) : String :=
  if s.overall < 40 then
    "Financial health is strained. With a net margin of " ++ toString m.netMargin ++
      " and a burn multiple of " ++ toString m.burnMultiple ++
      ", stabilizing cash and margins is the immediate priority."
  else if s.overall ≤ 70 then
    "Financial health is stable but mixed. A net margin of " ++ toString m.netMargin ++
      " and growth velocity of " ++ toString m.growthVelocity ++
      " leave room to compound faster with targeted fixes."
  else
    "Financial health is strong. Net margin of " ++ toString m.netMargin ++
      " and growth velocity of " ++ toString m.growthVelocity ++
      " support leaning into expansion while guarding efficiency."

/-- Modelled from the spec: the AnalysisResult record of the missing
src/lib/analysis.ts (spec section 3). -/
structure AnalysisResult where
  metrics : TrailingMetrics
  scenario : List ScenarioYear
  healthScores : HealthScores
  riskSignals : List String
  narrative : String
  recommendations : List Recommendation
deriving DecidableEq

/-- Modelled from the spec: runAnalysis of the missing src/lib/analysis.ts,
the strict pipeline of spec section 2 composing the Metrics Calculator,
Scenario Projector, Health Scorer, Risk Signal Detector and Narrative
Composer. -/
def runAnalysis (periods : List FinancialPeriod) (assumptions : ScenarioAssumptions) :
    AnalysisResult :=
  let m := computeMetrics periods
  let scores := computeHealthScores m
  { metrics := m
    scenario := buildScenario (periods.getLastD defPeriod) m assumptions
    healthScores := scores
    riskSignals := computeRiskSignals m periods
    narrative := narrativeFor scores m
    recommendations := buildRecommendations scores }

/-- Responses the POST handler can produce: a JSON body with a data field
and status 200, a client error with an error field and status 400, or a
server error with an error field and status 500. -/
inductive PostResponse where
  | ok (data : AnalysisResult)
  | clientError (msg : String)
  | serverError (msg : String)
deriving DecidableEq

/-- HTTP status of a response of the POST handler. -/
def PostResponse.status : PostResponse → ℕ
  | .ok _ => 200
  | .clientError _ => 400
  | .serverError _ => 500

/-- The fixed message of the catch-all branch of the POST handler. -/
def genericFailure : String := "Unable to evaluate financials."

/-- Embedding of the POST handler from src/app/api/analyze/route.ts.  The
argument is the outcome of await request.json(): none when body parsing
throws.  The try block is modelled by the two explicit throwing steps the
handler contains, body parsing and property access on a null or undefined
body; both land in the catch branch, which answers 500 with a fixed
message.  An empty sanitized period list answers 400, and otherwise the
analysis result is returned with status 200. -/
def POST (parsedBody : Option JSValue) : PostResponse :=
  match parsedBody with
  | none => PostResponse.serverError genericFailure
  | some body =>
    if body.accessThrows then PostResponse.serverError genericFailure
    else
      let periods := normalizePeriods (body.getField "periods")
      let assumptions := normalizeAssumptions (body.getField "assumptions")
      if periods.isEmpty then PostResponse.clientError "No financial periods supplied."
      else PostResponse.ok (runAnalysis periods assumptions)

lemma sanitizeNumber_eq_getD (v : JSValue) :
    sanitizeNumber v = (finiteNumeric v).getD 0 := by
  cases v with
  | num n => cases n <;> rfl
  | str s =>
    cases h : jsParseFloat s <;> simp [sanitizeNumber, finiteNumeric, h]
  | undefined => rfl
  | null => rfl
  | bool b => rfl
  | arr l => rfl
  | obj l => rfl

lemma sanitize_cases (v : JSValue) :
    (finiteNumeric v = none → sanitizeNumber v = 0) ∧
    (∀ q : ℚ, finiteNumeric v = some q → sanitizeNumber v = q) := by
  constructor
  · intro h; rw [sanitizeNumber_eq_getD, h]; rfl
  · intro q h; rw [sanitizeNumber_eq_getD, h]; rfl

lemma exists_of_mem_reduceOption_map {α β : Type} (f : α → Option β) (l : List α) (b : β)
    (hb : b ∈ (l.map f).reduceOption) : ∃ a ∈ l, f a = some b := by
  induction l with
  | nil => simp [List.reduceOption_nil] at hb
  | cons x xs ih =>
    rw [List.map_cons] at hb
    cases hfx : f x with
    | none =>
      rw [hfx, List.reduceOption_cons_of_none] at hb
      obtain ⟨a, ha, hfa⟩ := ih hb
      exact ⟨a, List.mem_cons_of_mem _ ha, hfa⟩
    | some y =>
      rw [hfx, List.reduceOption_cons_of_some] at hb
      rcases List.mem_cons.mp hb with h | h
      · exact ⟨x, List.mem_cons_self x xs, by rw [hfx, h]⟩
      · obtain ⟨a, ha, hfa⟩ := ih h
        exact ⟨a, List.mem_cons_of_mem _ ha, hfa⟩

lemma normalizePeriods_arr_eq (rows : List JSValue) :
    normalizePeriods (JSValue.arr rows) =
      (rows.filter fun r => r.isObjectLike).map normalizeRow := by
  induction rows with
  | nil => rfl
  | cons x xs ih =>
    simp only [normalizePeriods] at ih ⊢
    cases hx : x.isObjectLike
    · simp [List.filter_cons, hx, List.reduceOption_cons_of_none, ih]
    · simp [List.filter_cons, hx, List.reduceOption_cons_of_some, ih]

/-- Claim C10: normalizePeriods maps each object-valued entry of the raw
array to exactly one sanitized period, preserving relative order and
depending only on that entry, so the output is exactly the object-like rows
mapped through normalizeRow and its length is the count of object-like
entries. -/
theorem normalizePeriods_filter_map_shape :
    ∀ rows : List JSValue,
      normalizePeriods (JSValue.arr rows) =
        (rows.filter fun r => r.isObjectLike).map normalizeRow ∧
      (normalizePeriods (JSValue.arr rows)).length =
        rows.countP fun r => r.isObjectLike := by
  intro rows
  refine ⟨normalizePeriods_arr_eq rows, ?_⟩
  rw [normalizePeriods_arr_eq rows, List.length_map, ← List.countP_eq_length_filter]

theorem normalizePeriods_filter_map_shape_witness :
    normalizePeriods (JSValue.arr [JSValue.null, JSValue.obj [], JSValue.num (JSNum.finite 7)]) =
      ([JSValue.null, JSValue.obj [], JSValue.num (JSNum.finite 7)].filter
        fun r => r.isObjectLike).map normalizeRow ∧
    (normalizePeriods (JSValue.arr [JSValue.null, JSValue.obj [], JSValue.num (JSNum.finite 7)])).length =
      [JSValue.null, JSValue.obj [], JSValue.num (JSNum.finite 7)].countP
        fun r => r.isObjectLike :=
  normalizePeriods_filter_map_shape [JSValue.null, JSValue.obj [], JSValue.num (JSNum.finite 7)]

/-- Claim C8: sanitizeNumber accepts string-encoded numbers: whenever
parseFloat of the string is finite, that parsed value is returned rather
than the default 0; in particular the string 150 yields 150 and the string
12abc yields 12. -/
theorem sanitizeNumber_accepts_numeric_strings :
    (∀ (s : String) (q : ℚ), jsParseFloat s = JSNum.finite q →
      sanitizeNumber (JSValue.str s) = q) ∧
    sanitizeNumber (JSValue.str "150") = 150 ∧
    sanitizeNumber (JSValue.str "12abc") = 12 := by
  refine ⟨?_, by decide, by decide⟩
  intro s q h
  simp [sanitizeNumber, h]

theorem sanitizeNumber_accepts_numeric_strings_witness :
    sanitizeNumber (JSValue.str " 42kg") = 42 :=
  sanitizeNumber_accepts_numeric_strings.1 " 42kg" 42 (by decide)

/-- Claim C9: raw period entries that are null or not objects are dropped
rather than defaulted, a non-array periods value yields the empty list, and
consequently a request whose periods array contains only non-object entries
is rejected with the client-error empty-input response even though a
non-empty periods value was supplied. -/
theorem normalizePeriods_drops_nonobjects :
    (∀ raw : JSValue, raw.isArray = false → normalizePeriods raw = []) ∧
    (∀ rows : List JSValue, (∀ r ∈ rows, r.isObjectLike = false) →
      normalizePeriods (JSValue.arr rows) = []) ∧
    POST (some (JSValue.obj
        [("periods", JSValue.arr [JSValue.null, JSValue.num (JSNum.finite 5)])])) =
      PostResponse.clientError "No financial periods supplied." := by
  refine ⟨?_, ?_, by decide⟩
  · intro raw h
    cases raw <;> first | rfl | simp [JSValue.isArray] at h
  · intro rows h
    rw [normalizePeriods_arr_eq, List.filter_eq_nil_iff.mpr, List.map_nil]
    intro r hr
    rw [h r hr]
    exact Bool.false_ne_true

theorem normalizePeriods_drops_nonobjects_witness :
    normalizePeriods (JSValue.str "x") = [] ∧
    normalizePeriods (JSValue.arr [JSValue.null, JSValue.bool true]) = [] :=
  ⟨normalizePeriods_drops_nonobjects.1 (JSValue.str "x") (by decide),
   normalizePeriods_drops_nonobjects.2.1 [JSValue.null, JSValue.bool true] (by decide)⟩

/-- The eight numeric field names of a raw period row. -/
def numericFieldNames : List String :=
  ["revenue", "cogs", "operatingExpenses", "netIncome", "assets", "liabilities",
   "cash", "freeCashFlow"]

/-- Numeric field of a sanitized period, selected by name. -/
def numericFieldOf (p : FinancialPeriod) (name : String) : ℚ :=
  if name = "revenue" then p.revenue
  else if name = "cogs" then p.cogs
  else if name = "operatingExpenses" then p.operatingExpenses
  else if name = "netIncome" then p.netIncome
  else if name = "assets" then p.assets
  else if name = "liabilities" then p.liabilities
  else if name = "cash" then p.cash
  else p.freeCashFlow

lemma numericFieldOf_normalizeRow (row : JSValue) :
    ∀ name ∈ numericFieldNames,
      numericFieldOf (normalizeRow row) name = sanitizeNumber (row.getField name) := by
  intro name hname
  fin_cases hname <;> simp [numericFieldOf, normalizeRow]

/-- Claim C1: every numeric field of every period produced by
normalizePeriods comes from sanitizing the corresponding raw field of its
row, hence is a finite rational by construction; it equals the raw value
exactly when that value is a finite number or a string parsing to one, and
equals 0 whenever the raw field is absent or not finite numeric. -/
theorem normalizePeriods_numeric_fields_sanitized :
    ∀ raw : JSValue, ∀ p ∈ normalizePeriods raw,
      ∃ row : JSValue,
        p = normalizeRow row ∧
        ∀ name ∈ numericFieldNames,
          (finiteNumeric (row.getField name) = none → numericFieldOf p name = 0) ∧
          (∀ q : ℚ, finiteNumeric (row.getField name) = some q → numericFieldOf p name = q) := by
  intro raw p hp
  cases raw with
  | arr rows =>
    rw [normalizePeriods_arr_eq] at hp
    obtain ⟨row, _, hrow⟩ := List.mem_map.mp hp
    refine ⟨row, hrow.symm, ?_⟩
    intro name hname
    have hfield := numericFieldOf_normalizeRow row name hname
    rw [hrow] at hfield
    constructor
    · intro hnone; rw [hfield]; exact (sanitize_cases _).1 hnone
    · intro q hsome; rw [hfield]; exact (sanitize_cases _).2 q hsome
  | undefined => exact absurd hp (List.not_mem_nil p)
  | null => exact absurd hp (List.not_mem_nil p)
  | bool b => exact absurd hp (List.not_mem_nil p)
  | num n => exact absurd hp (List.not_mem_nil p)
  | str s => exact absurd hp (List.not_mem_nil p)
  | obj fields => exact absurd hp (List.not_mem_nil p)

theorem normalizePeriods_numeric_fields_sanitized_witness :
    ∃ row : JSValue,
      normalizeRow (JSValue.obj [("revenue", JSValue.str "150")]) = normalizeRow row ∧
      ∀ name ∈ numericFieldNames,
        (finiteNumeric (row.getField name) = none →
          numericFieldOf (normalizeRow (JSValue.obj [("revenue", JSValue.str "150")])) name = 0) ∧
        (∀ q : ℚ, finiteNumeric (row.getField name) = some q →
          numericFieldOf (normalizeRow (JSValue.obj [("revenue", JSValue.str "150")])) name = q) :=
  normalizePeriods_numeric_fields_sanitized
    (JSValue.arr [JSValue.obj [("revenue", JSValue.str "150")]])
    (normalizeRow (JSValue.obj [("revenue", JSValue.str "150")]))
    (by simp [normalizePeriods_arr_eq, List.filter_cons, JSValue.isObjectLike])

lemma normalizeLabel_ne_empty (v : JSValue) : normalizeLabel v ≠ "" := by
  cases v with
  | str s =>
    simp only [normalizeLabel]
    split
    · next h =>
      intro hs
      subst hs
      exact h rfl
    · simp
  | undefined => simp [normalizeLabel]
  | null => simp [normalizeLabel]
  | bool b => simp [normalizeLabel]
  | num n => simp [normalizeLabel]
  | arr l => simp [normalizeLabel]
  | obj l => simp [normalizeLabel]

/-- Claim C5: every period produced by normalizePeriods has a non-empty
label; a string label whose trim is non-empty is kept unchanged, a string
label consisting only of whitespace becomes the placeholder "Period", and a
missing or non-string label also becomes "Period". -/
theorem normalizePeriods_label_contract :
    (∀ raw : JSValue, ∀ p ∈ normalizePeriods raw, p.label ≠ "") ∧
    (∀ s : String, (jsTrim s).length ≠ 0 → normalizeLabel (JSValue.str s) = s) ∧
    (∀ s : String, (jsTrim s).length = 0 → normalizeLabel (JSValue.str s) = "Period") ∧
    (∀ v : JSValue, (∀ s : String, v ≠ JSValue.str s) → normalizeLabel v = "Period") := by
  refine ⟨?_, ?_, ?_, ?_⟩
  · intro raw p hp
    cases raw with
    | arr rows =>
      rw [normalizePeriods_arr_eq] at hp
      obtain ⟨row, _, hrow⟩ := List.mem_map.mp hp
      rw [← hrow]
      exact normalizeLabel_ne_empty (row.getField "label")
    | undefined => exact absurd hp (List.not_mem_nil p)
    | null => exact absurd hp (List.not_mem_nil p)
    | bool b => exact absurd hp (List.not_mem_nil p)
    | num n => exact absurd hp (List.not_mem_nil p)
    | str s => exact absurd hp (List.not_mem_nil p)
    | obj fields => exact absurd hp (List.not_mem_nil p)
  · intro s h
    simp [normalizeLabel, h]
  · intro s h
    simp [normalizeLabel, h]
  · intro v h
    cases v with
    | str s => exact absurd rfl (h s)
    | undefined => rfl
    | null => rfl
    | bool b => rfl
    | num n => rfl
    | arr l => rfl
    | obj l => rfl

theorem normalizePeriods_label_contract_witness :
    normalizeLabel (JSValue.str "FY24") = "FY24" ∧
    normalizeLabel (JSValue.str "   ") = "Period" ∧
    normalizeLabel JSValue.undefined = "Period" :=
  ⟨normalizePeriods_label_contract.2.1 "FY24" (by decide),
   normalizePeriods_label_contract.2.2.1 "   " (by decide),
   normalizePeriods_label_contract.2.2.2 JSValue.undefined
     (fun s h => JSValue.noConfusion h)⟩

/-- Claim C4: normalizeAssumptions always yields a record of four finite
rationals; a missing, null, falsy or non-object raw value yields the
all-zero record, an object yields the sanitized value of each of its four
fields, and sanitizing defaults any non-numeric field to 0. -/
theorem normalizeAssumptions_sanitized :
    ∀ raw : JSValue,
      ((raw.isTruthy = false ∨ raw.typeofObject = false) →
        normalizeAssumptions raw =
          { revenueGrowth := 0, marginShift := 0, efficiencyGain := 0,
            cashConversion := 0 }) ∧
      (raw.isTruthy = true → raw.typeofObject = true →
        normalizeAssumptions raw =
          { revenueGrowth := sanitizeNumber (raw.getField "revenueGrowth")
            marginShift := sanitizeNumber (raw.getField "marginShift")
            efficiencyGain := sanitizeNumber (raw.getField "efficiencyGain")
            cashConversion := sanitizeNumber (raw.getField "cashConversion") }) ∧
      (∀ v : JSValue, finiteNumeric v = none → sanitizeNumber v = 0) := by
  intro raw
  refine ⟨?_, ?_, fun v h => (sanitize_cases v).1 h⟩
  · intro h
    rcases h with h | h <;> simp [normalizeAssumptions, h]
  · intro h1 h2
    simp [normalizeAssumptions, h1, h2]

theorem normalizeAssumptions_sanitized_witness :
    normalizeAssumptions JSValue.null =
      { revenueGrowth := 0, marginShift := 0, efficiencyGain := 0,
        cashConversion := 0 } ∧
    normalizeAssumptions (JSValue.obj [("revenueGrowth", JSValue.str "5")]) =
      { revenueGrowth :=
          sanitizeNumber
            ((JSValue.obj [("revenueGrowth", JSValue.str "5")]).getField "revenueGrowth")
        marginShift :=
          sanitizeNumber
            ((JSValue.obj [("revenueGrowth", JSValue.str "5")]).getField "marginShift")
        efficiencyGain :=
          sanitizeNumber
            ((JSValue.obj [("revenueGrowth", JSValue.str "5")]).getField "efficiencyGain")
        cashConversion :=
          sanitizeNumber
            ((JSValue.obj [("revenueGrowth", JSValue.str "5")]).getField "cashConversion") } :=
  ⟨(normalizeAssumptions_sanitized JSValue.null).1 (Or.inl (by decide)),
   (normalizeAssumptions_sanitized
     (JSValue.obj [("revenueGrowth", JSValue.str "5")])).2.1 (by decide) (by decide)⟩

/-- Claim C2: with a body on which property access succeeds, an empty
sanitized period list makes POST answer the fixed client error with status
400 before any analysis runs, and a non-empty sanitized period list makes
POST answer the analysis result with success status 200. -/
theorem POST_responds_by_period_count (body : JSValue)
    (h : body.accessThrows = false) :
    (normalizePeriods (body.getField "periods") = [] →
      POST (some body) = PostResponse.clientError "No financial periods supplied." ∧
      (POST (some body)).status = 400) ∧
    (normalizePeriods (body.getField "periods") ≠ [] →
      POST (some body) =
        PostResponse.ok (runAnalysis (normalizePeriods (body.getField "periods"))
          (normalizeAssumptions (body.getField "assumptions"))) ∧
      (POST (some body)).status = 200) := by
  constructor
  · intro he
    have hres : POST (some body) =
        PostResponse.clientError "No financial periods supplied." := by
      simp [POST, h, he]
    exact ⟨hres, by rw [hres]; rfl⟩
  · intro hne
    have hres : POST (some body) =
        PostResponse.ok (runAnalysis (normalizePeriods (body.getField "periods"))
          (normalizeAssumptions (body.getField "assumptions"))) := by
      simp [POST, h, List.isEmpty_iff, hne]
    exact ⟨hres, by rw [hres]; rfl⟩

theorem POST_responds_by_period_count_witness :
    (POST (some (JSValue.obj [])) =
      PostResponse.clientError "No financial periods supplied." ∧
      (POST (some (JSValue.obj []))).status = 400) ∧
    (POST (some (JSValue.obj [("periods", JSValue.arr [JSValue.obj []])])) =
      PostResponse.ok
        (runAnalysis
          (normalizePeriods
            ((JSValue.obj [("periods", JSValue.arr [JSValue.obj []])]).getField "periods"))
          (normalizeAssumptions
            ((JSValue.obj [("periods", JSValue.arr [JSValue.obj []])]).getField "assumptions"))) ∧
      (POST (some (JSValue.obj [("periods", JSValue.arr [JSValue.obj []])]))).status = 200) :=
  ⟨(POST_responds_by_period_count (JSValue.obj []) (by decide)).1 (by decide),
   (POST_responds_by_period_count (JSValue.obj [("periods", JSValue.arr [JSValue.obj []])])
     (by decide)).2 (by decide)⟩

/-- Claim C3: every throwing step of the handler, namely a failing body
parse and property access on a null or undefined body, is caught and
answered with the fixed generic server-error message carrying status 500
and no failure detail; POST is a total function, every response being one
of the three fixed shapes, so no exception propagates. -/
theorem POST_catches_exceptions :
    POST none = PostResponse.serverError genericFailure ∧
    (∀ body : JSValue, body.accessThrows = true →
      POST (some body) = PostResponse.serverError genericFailure) ∧
    (∀ input : Option JSValue,
      (∃ a, POST input = PostResponse.ok a) ∨
      POST input = PostResponse.clientError "No financial periods supplied." ∨
      POST input = PostResponse.serverError genericFailure) ∧
    (PostResponse.serverError genericFailure).status = 500 := by
  refine ⟨rfl, ?_, ?_, rfl⟩
  · intro body hb
    simp [POST, hb]
  · intro input
    match input with
    | none => exact Or.inr (Or.inr rfl)
    | some body =>
      by_cases hb : body.accessThrows = true
      · exact Or.inr (Or.inr (by simp [POST, hb]))
      · rw [Bool.not_eq_true] at hb
        by_cases he : normalizePeriods (body.getField "periods") = []
        · exact Or.inr (Or.inl (by simp [POST, hb, he]))
        · exact Or.inl ⟨runAnalysis (normalizePeriods (body.getField "periods"))
            (normalizeAssumptions (body.getField "assumptions")),
            by simp [POST, hb, List.isEmpty_iff, he]⟩

theorem POST_catches_exceptions_witness :
    POST (some JSValue.null) = PostResponse.serverError genericFailure :=
  POST_catches_exceptions.2.1 JSValue.null (by decide)

lemma clampQ_bounds (lo hi x : ℚ) (h : lo ≤ hi) :
    lo ≤ clampQ lo hi x ∧ clampQ lo hi x ≤ hi :=
  ⟨le_max_left lo (min hi x), max_le h (min_le_left hi x)⟩

lemma scoreLinear_bounds (bad good m : ℚ) :
    0 ≤ scoreLinear bad good m ∧ scoreLinear bad good m ≤ 100 :=
  clampQ_bounds 0 100 _ (by norm_num)

lemma length_insertByScore (x : ℕ × ℚ) (l : List (ℕ × ℚ)) :
    (insertByScore x l).length = l.length + 1 := by
  induction l with
  | nil => rfl
  | cons y ys ih =>
    simp only [insertByScore]
    split
    · simp
    · simp [ih]

lemma length_sortByScore (l : List (ℕ × ℚ)) :
    (sortByScore l).length = l.length := by
  induction l with
  | nil => rfl
  | cons x xs ih =>
    simp only [sortByScore]
    rw [length_insertByScore, ih, List.length_cons]

lemma length_buildRecommendations (s : HealthScores) :
    (buildRecommendations s).length = 3 := by
  simp only [buildRecommendations]
  rw [List.length_map, List.length_take, length_sortByScore]
  norm_num

lemma length_singleton_ite_le (c : Prop) [Decidable c] (x : String) :
    (if c then [x] else []).length ≤ 1 := by
  split <;> simp

lemma length_fcfWorseningSignals_le (periods : List FinancialPeriod) :
    (fcfWorseningSignals periods).length ≤ 1 := by
  unfold fcfWorseningSignals
  cases lastTwo periods with
  | none => simp
  | some ab =>
    obtain ⟨a, b⟩ := ab
    dsimp only
    split <;> simp

lemma computeRiskSignals_length_le (m : TrailingMetrics)
    (periods : List FinancialPeriod) :
    (computeRiskSignals m periods).length ≤ 5 := by
  unfold computeRiskSignals
  simp only [List.length_append]
  exact le_trans
    (Nat.add_le_add
      (Nat.add_le_add
        (Nat.add_le_add
          (Nat.add_le_add (length_singleton_ite_le _ _) (length_singleton_ite_le _ _))
          (length_singleton_ite_le _ _))
        (length_singleton_ite_le _ _))
      (length_fcfWorseningSignals_le periods))
    (by norm_num)

/-- Claim C6: for every non-empty sanitized period list and sanitized
assumptions, the analysis result has exactly 3 scenario years, exactly 3
recommendation sections, and between 0 and 5 risk signals. -/
theorem runAnalysis_shape (periods : List FinancialPeriod)
    (a : ScenarioAssumptions) (_h : periods ≠ []) :
    (runAnalysis periods a).scenario.length = 3 ∧
    (runAnalysis periods a).recommendations.length = 3 ∧
    0 ≤ (runAnalysis periods a).riskSignals.length ∧
    (runAnalysis periods a).riskSignals.length ≤ 5 := by
  refine ⟨rfl, ?_, Nat.zero_le _, ?_⟩
  · exact length_buildRecommendations (computeHealthScores (computeMetrics periods))
  · exact computeRiskSignals_length_le (computeMetrics periods) periods

theorem runAnalysis_shape_witness :
    (runAnalysis [defPeriod]
      { revenueGrowth := 0, marginShift := 0, efficiencyGain := 0,
        cashConversion := 0 }).scenario.length = 3 ∧
    (runAnalysis [defPeriod]
      { revenueGrowth := 0, marginShift := 0, efficiencyGain := 0,
        cashConversion := 0 }).recommendations.length = 3 ∧
    0 ≤ (runAnalysis [defPeriod]
      { revenueGrowth := 0, marginShift := 0, efficiencyGain := 0,
        cashConversion := 0 }).riskSignals.length ∧
    (runAnalysis [defPeriod]
      { revenueGrowth := 0, marginShift := 0, efficiencyGain := 0,
        cashConversion := 0 }).riskSignals.length ≤ 5 :=
  runAnalysis_shape [defPeriod]
    { revenueGrowth := 0, marginShift := 0, efficiencyGain := 0, cashConversion := 0 }
    (by simp)

/-- Claim C7: for every non-empty sanitized period list and sanitized
assumptions, including degenerate inputs such as a single all-zero period,
each of the five health scores of the analysis result lies in the closed
interval from 0 to 100. -/
theorem runAnalysis_scores_bounded (periods : List FinancialPeriod)
    (a : ScenarioAssumptions) (_h : periods ≠ []) :
    (0 ≤ (runAnalysis periods a).healthScores.overall ∧
      (runAnalysis periods a).healthScores.overall ≤ 100) ∧
    (0 ≤ (runAnalysis periods a).healthScores.growth ∧
      (runAnalysis periods a).healthScores.growth ≤ 100) ∧
    (0 ≤ (runAnalysis periods a).healthScores.profitability ∧
      (runAnalysis periods a).healthScores.profitability ≤ 100) ∧
    (0 ≤ (runAnalysis periods a).healthScores.liquidity ∧
      (runAnalysis periods a).healthScores.liquidity ≤ 100) ∧
    (0 ≤ (runAnalysis periods a).healthScores.efficiency ∧
      (runAnalysis periods a).healthScores.efficiency ≤ 100) := by
  refine ⟨?_, ?_, ?_, ?_, ?_⟩
  · exact clampQ_bounds 0 100 _ (by norm_num)
  · exact scoreLinear_bounds _ _ _
  · exact scoreLinear_bounds _ _ _
  · exact scoreLinear_bounds _ _ _
  · exact scoreLinear_bounds _ _ _

theorem runAnalysis_scores_bounded_witness :
    (0 ≤ (runAnalysis [defPeriod]
      { revenueGrowth := 0, marginShift := 0, efficiencyGain := 0,
        cashConversion := 0 }).healthScores.overall ∧
      (runAnalysis [defPeriod]
        { revenueGrowth := 0, marginShift := 0, efficiencyGain := 0,
          cashConversion := 0 }).healthScores.overall ≤ 100) ∧
    (0 ≤ (runAnalysis [defPeriod]
      { revenueGrowth := 0, marginShift := 0, efficiencyGain := 0,
        cashConversion := 0 }).healthScores.growth ∧
      (runAnalysis [defPeriod]
        { revenueGrowth := 0, marginShift := 0, efficiencyGain := 0,
          cashConversion := 0 }).healthScores.growth ≤ 100) ∧
    (0 ≤ (runAnalysis [defPeriod]
      { revenueGrowth := 0, marginShift := 0, efficiencyGain := 0,
        cashConversion := 0 }).healthScores.profitability ∧
      (runAnalysis [defPeriod]
        { revenueGrowth := 0, marginShift := 0, efficiencyGain := 0,
          cashConversion := 0 }).healthScores.profitability ≤ 100) ∧
    (0 ≤ (runAnalysis [defPeriod]
      { revenueGrowth := 0, marginShift := 0, efficiencyGain := 0,
        cashConversion := 0 }).healthScores.liquidity ∧
      (runAnalysis [defPeriod]
        { revenueGrowth := 0, marginShift := 0, efficiencyGain := 0,
          cashConversion := 0 }).healthScores.liquidity ≤ 100) ∧
    (0 ≤ (runAnalysis [defPeriod]
      { revenueGrowth := 0, marginShift := 0, efficiencyGain := 0,
        cashConversion := 0 }).healthScores.efficiency ∧
      (runAnalysis [defPeriod]
        { revenueGrowth := 0, marginShift := 0, efficiencyGain := 0,
          cashConversion := 0 }).healthScores.efficiency ≤ 100) :=
  runAnalysis_scores_bounded [defPeriod]
    { revenueGrowth := 0, marginShift := 0, efficiencyGain := 0, cashConversion := 0 }
    (by simp)
